import Mathlib

/-!
Verification of the behavioral contract of `scripts/run_database_setup.py`,
a linear database-setup runner: credential check, client construction, two
file reads, schema execution, seed execution, verification queries, and a
closing summary banner.

The script is embedded shallowly: the process environment, the two SQL
files, and the remote service's responses are inputs; the run result
records the console output (one entry per `print` call), the termination
outcome, whether the client was constructed, and the trace of remote calls
in order.
-/

deriving instance DecidableEq for Except

namespace DbSetup

/-- The two environment variables read by the script (`os.environ.get`
returns `None` when absent, modelled by `Option`). -/
structure Env where
  SUPABASE_URL : Option String
  SUPABASE_SERVICE_ROLE_KEY : Option String
deriving DecidableEq

/-- Python truthiness of an `Optional[str]`: `None` and the empty string
are falsy, every other string is truthy.  The script's guard is
`if not SUPABASE_URL or not SUPABASE_SERVICE_ROLE_KEY`. -/
def truthy : Option String → Bool
  | none => false
  | some s => !s.isEmpty

/-- The local file system: contents of the two SQL scripts at their fixed
relative paths; `none` means the `open`/`read` raises (file missing or
unreadable). -/
structure FS where
  schemaFile : Option String
  seedFile : Option String
deriving DecidableEq

/-- One row of a query response: a dictionary from column names to values,
as the supabase client returns rows. -/
structure Row where
  fields : List (String × String)
deriving DecidableEq

/-- Python `row['symbol']`: a missing key raises `KeyError`, whose
`str()` is the quoted key. -/
def Row.get (r : Row) (k : String) : Except String String :=
  match r.fields.lookup k with
  | some v => Except.ok v
  | none => Except.error ("\x27" ++ k ++ "\x27")

/-- The remote service's responses to the (up to four) remote calls the
script can make, in source order: `rpc('exec_sql', schema)`,
`rpc('exec_sql', seed)`, the count query on `price_history`, and the
plain symbol-rows query.  An `error` value is the `str()` of the raised
exception. -/
structure Oracle where
  schemaResp : Except String Unit
  seedResp : Except String Unit
  countResp : Except String Nat
  rowsResp : Except String (List Row)
deriving DecidableEq

/-- A remote operation, as recorded in the call trace. -/
inductive RemoteCall where
  | execSql (sql : String)
  | selectCount
  | selectRows
deriving DecidableEq

/-- How the process ends: a normal `exit` with a status code, or an
unhandled exception (only the file reads can raise one). -/
inductive Outcome where
  | exited (code : Nat)
  | crashed (msg : String)
deriving DecidableEq

/-- The observable result of one run: console output (one entry per
`print`, in order, each string exactly the `print` argument), the
termination outcome, whether `create_client` was reached, and the ordered
trace of remote calls attempted. -/
structure RunResult where
  output : List String
  outcome : Outcome
  clientBuilt : Bool
  calls : List RemoteCall
deriving DecidableEq

/-- `"=" * 80`, the banner line printed throughout. -/
def bannerLine : String := String.mk (List.replicate 80 '=')

/-- Output of the header block and the "Reading SQL scripts" line, printed
after client construction and before the file reads. -/
def headerOutput : List String :=
  [bannerLine,
   "CRYPTO TRADING PLATFORM - DATABASE SETUP",
   bannerLine,
   "\n[v0] Reading SQL scripts..."]

/-- Lines printed between a successful file load and the first try block. -/
def step1Output : List String :=
  ["[v0] SQL scripts loaded successfully",
   "\n" ++ bannerLine,
   "STEP 1: Creating Enhanced Database Schema",
   bannerLine]

/-- The STEP 2 banner, printed unconditionally after the schema try block. -/
def step2Output : List String :=
  ["\n" ++ bannerLine,
   "STEP 2: Seeding Sample Price Data",
   bannerLine]

/-- The STEP 3 banner, printed unconditionally after the seed try block. -/
def step3Output : List String :=
  ["\n" ++ bannerLine,
   "STEP 3: Verifying Database Setup",
   bannerLine]

/-- The closing summary banner and next-step guidance, printed
unconditionally at the end of the script. -/
def closingOutput : List String :=
  ["\n" ++ bannerLine,
   "DATABASE SETUP COMPLETE!",
   bannerLine,
   "\nNext steps:",
   "  1. Add exchange API credentials via the Trading page",
   "  2. Connect DeFi wallets via the Wallet Connect button",
   "  3. Start monitoring crypto prices in real-time",
   "  4. Create trading strategies and set price alerts",
   "\n" ++ bannerLine]

/-- The two lines printed when a required credential is missing, before
`exit(1)`. -/
def missingCredsOutput : List String :=
  ["ERROR: Missing Supabase credentials!",
   "Required environment variables: SUPABASE_URL, SUPABASE_SERVICE_ROLE_KEY"]

/-- Output of the schema-creation try block, as a function of the
response to `rpc('exec_sql', schema_sql)`. -/
def schemaStep : Except String Unit → List String
  | Except.ok _ =>
    ["\n✓ Schema creation completed successfully!",
     "\nTables created:",
     "  • user_profiles",
     "  • exchange_connections (Kraken, Binance US, Coinbase)",
     "  • wallet_connections (MetaMask, WalletConnect, etc.)",
     "  • price_history",
     "  • trading_orders",
     "  • transactions",
     "  • portfolio_holdings",
     "  • trading_strategies",
     "  • price_alerts",
     "  • dashboard_stats",
     "\n✓ Row Level Security (RLS) policies enabled",
     "✓ Indexes created for performance",
     "✓ Triggers configured for auto-updates"]
  | Except.error e =>
    ["\n✗ Error creating schema: " ++ e,
     "\nNOTE: If you see \x27relation does not exist\x27 errors, this is expected.",
     "      The script will execute via the Supabase SQL Editor.",
     "\nPlease run the following scripts manually in Supabase SQL Editor:",
     "  1. scripts/001_reset_and_create_enhanced_schema.sql",
     "  2. scripts/002_seed_sample_data.sql"]

/-- Output of the seed-data try block, as a function of the response to
`rpc('exec_sql', seed_sql)`. -/
def seedStep : Except String Unit → List String
  | Except.ok _ =>
    ["\n✓ Sample data seeded successfully!",
     "\nSample cryptocurrencies added:",
     "  • BTC (Bitcoin) - 5 historical data points",
     "  • ETH (Ethereum) - 5 historical data points",
     "  • SOL (Solana) - 3 historical data points",
     "  • ADA (Cardano) - 2 historical data points",
     "  • MATIC (Polygon) - 2 historical data points"]
  | Except.error e =>
    ["\n✗ Error seeding data: " ++ e]

/-- `set(row['symbol'] for row in symbols_result.data)` evaluated for its
error behavior: extracts each row's `symbol` value, stopping at the first
`KeyError`. -/
def rowsSymbols (rows : List Row) : Except String (List String) :=
  rows.mapM (fun r => r.get "symbol")

/-- Python's lexicographic comparison of strings as character lists: by
code point, a strict prefix sorting before its extensions. -/
def charListLe : List Char → List Char → Bool
  | [], _ => true
  | _ :: _, [] => false
  | a :: as, b :: bs =>
    if a.toNat < b.toNat then true
    else if b.toNat < a.toNat then false
    else charListLe as bs

/-- Python's `<=` on `str`, code-point lexicographic. -/
def strLe (a b : String) : Bool :=
  charListLe a.data b.data

/-- `strLe` as a proposition, the order `sorted` sorts by. -/
def pyLe (a b : String) : Prop :=
  strLe a b = true

instance : DecidableRel pyLe := by
  unfold pyLe; infer_instance

/-- `sorted(set(...))`: the distinct values, sorted ascending by Python's
string order. -/
def uniqueSorted (l : List String) : List String :=
  List.insertionSort pyLe l.dedup

/-- The "Available symbols" line, from the raw (possibly duplicated,
unordered) list of symbol values. -/
def symbolsLine (syms : List String) : String :=
  "✓ Available symbols: " ++ String.intercalate ", " (uniqueSorted syms)

/-- The diagnostic pair printed by the verification `except` block. -/
def verifyFailOutput (e : String) : List String :=
  ["\n✗ Verification failed: " ++ e,
   "\nPlease ensure the SQL scripts have been executed in Supabase."]

/-- The verification try block: the count query runs first; only if it
succeeds are its two success lines printed and the symbol-rows query
attempted; a `KeyError` while building the symbol set is caught by the
same `except`.  Returns the block's output and its remote calls. -/
def verificationStep (count : Except String Nat) (rows : Except String (List Row)) :
    List String × List RemoteCall :=
  match count with
  | Except.error e => (verifyFailOutput e, [RemoteCall.selectCount])
  | Except.ok n =>
    let okLines := ["\n✓ Database connection successful!",
                    "✓ Found " ++ toString n ++ " price history records"]
    match rows with
    | Except.error e =>
      (okLines ++ verifyFailOutput e, [RemoteCall.selectCount, RemoteCall.selectRows])
    | Except.ok rs =>
      match rowsSymbols rs with
      | Except.error e =>
        (okLines ++ verifyFailOutput e, [RemoteCall.selectCount, RemoteCall.selectRows])
      | Except.ok syms =>
        (okLines ++ [symbolsLine syms], [RemoteCall.selectCount, RemoteCall.selectRows])

/-- The whole script, `scripts/run_database_setup.py`, as a function of
the environment, the file system and the remote service's responses. -/
def runSetup (env : Env) (fs : FS) (o : Oracle) : RunResult :=
  if !truthy env.SUPABASE_URL || !truthy env.SUPABASE_SERVICE_ROLE_KEY then
    { output := missingCredsOutput, outcome := Outcome.exited 1,
      clientBuilt := false, calls := [] }
  else
    match fs.schemaFile, fs.seedFile with
    | none, _ =>
      { output := headerOutput,
        outcome := Outcome.crashed "unhandled error reading scripts/001_reset_and_create_enhanced_schema.sql",
        clientBuilt := true, calls := [] }
    | some _, none =>
      { output := headerOutput,
        outcome := Outcome.crashed "unhandled error reading scripts/002_seed_sample_data.sql",
        clientBuilt := true, calls := [] }
    | some schemaSql, some seedSql =>
      let v := verificationStep o.countResp o.rowsResp
      { output := headerOutput ++ step1Output ++ schemaStep o.schemaResp
                  ++ step2Output ++ seedStep o.seedResp
                  ++ step3Output ++ v.1 ++ closingOutput,
        outcome := Outcome.exited 0,
        clientBuilt := true,
        calls := RemoteCall.execSql schemaSql :: RemoteCall.execSql seedSql :: v.2 }

/-- Both credentials present and non-empty: the guard falls through. -/
def credsOk (env : Env) : Prop :=
  truthy env.SUPABASE_URL = true ∧ truthy env.SUPABASE_SERVICE_ROLE_KEY = true

instance (env : Env) : Decidable (credsOk env) := by
  unfold credsOk; infer_instance

/-! Concrete runs used to instantiate the theorems below. -/

/-- A concrete environment with both credentials set and non-empty. -/
def envOK : Env :=
  ⟨some "https://example.supabase.co", some "service-key-123"⟩

/-- A second concrete environment with different credential values. -/
def envOK2 : Env :=
  ⟨some "https://other.supabase.co", some "another-key-456"⟩

/-- A concrete file system with both SQL scripts readable. -/
def fsOK : FS :=
  ⟨some "CREATE TABLE price_history;", some "INSERT INTO price_history;"⟩

/-- A concrete file system with the schema script missing. -/
def fsNoSchema : FS :=
  ⟨none, some "INSERT INTO price_history;"⟩

/-- Symbol rows `{BTC, BTC, ETH, SOL}` from the mocked verification
response of the spec. -/
def rows12 : List Row :=
  [⟨[("symbol", "BTC")]⟩, ⟨[("symbol", "BTC")]⟩,
   ⟨[("symbol", "ETH")]⟩, ⟨[("symbol", "SOL")]⟩]

/-- Symbol rows for the happy-path scenario `{BTC, ETH, SOL, ADA, MATIC}`. -/
def rows19 : List Row :=
  [⟨[("symbol", "BTC")]⟩, ⟨[("symbol", "ETH")]⟩, ⟨[("symbol", "SOL")]⟩,
   ⟨[("symbol", "ADA")]⟩, ⟨[("symbol", "MATIC")]⟩]

/-- All remote calls succeed; count 12, rows `{BTC, BTC, ETH, SOL}`. -/
def oracle12 : Oracle :=
  ⟨Except.ok (), Except.ok (), Except.ok 12, Except.ok rows12⟩

/-- All remote calls succeed; count 19, five distinct symbols. -/
def oracle19 : Oracle :=
  ⟨Except.ok (), Except.ok (), Except.ok 19, Except.ok rows19⟩

/-- All four possible remote calls fail. -/
def oracleAllFail : Oracle :=
  ⟨Except.error "connection refused", Except.error "connection refused",
   Except.error "connection refused", Except.error "connection refused"⟩

/-- Only the seed execution fails. -/
def oracleSeedFail : Oracle :=
  ⟨Except.ok (), Except.error "syntax error at or near INSERT",
   Except.ok 12, Except.ok rows12⟩

/-- The verification count query fails; later responses are irrelevant. -/
def oracleCountFail : Oracle :=
  ⟨Except.ok (), Except.ok (),
   Except.error "relation public.price_history does not exist", Except.ok rows12⟩

/-- The verification queries succeed but a returned row lacks the
`symbol` key. -/
def oracleBadRow : Oracle :=
  ⟨Except.ok (), Except.ok (), Except.ok 3,
   Except.ok [⟨[("symbol", "BTC")]⟩, ⟨[("sym", "ETH")]⟩]⟩

/-! Order properties of Python's string comparison, needed to show that
`sorted(set(...))` is a canonical form of the symbol set. -/

theorem charToNat_inj {a b : Char} (h : a.toNat = b.toNat) : a = b :=
  Char.ext (UInt32.ext h)

theorem charListLe_refl (x : List Char) : charListLe x x = true := by
  induction x with
  | nil => rfl
  | cons a as ih => simp [charListLe, ih]

theorem charListLe_total (x y : List Char) :
    charListLe x y = true ∨ charListLe y x = true := by
  induction x generalizing y with
  | nil => exact Or.inl rfl
  | cons a as ih =>
    cases y with
    | nil => exact Or.inr rfl
    | cons b bs =>
      rcases Nat.lt_trichotomy a.toNat b.toNat with h | h | h
      · exact Or.inl (by simp [charListLe, h])
      · rcases ih bs with h2 | h2
        · exact Or.inl (by simp [charListLe, h, h2])
        · exact Or.inr (by simp [charListLe, h, h2])
      · exact Or.inr (by simp [charListLe, h])

theorem charListLe_trans {x y z : List Char} (h1 : charListLe x y = true)
    (h2 : charListLe y z = true) : charListLe x z = true := by
  induction x generalizing y z with
  | nil => rfl
  | cons a as ih =>
    cases y with
    | nil => simp [charListLe] at h1
    | cons b bs =>
      cases z with
      | nil => simp [charListLe] at h2
      | cons c cs =>
        simp only [charListLe] at h1 h2 ⊢
        split_ifs at h1 h2 ⊢ <;> first
          | rfl
          | omega
          | (exact ih h1 h2)

theorem charListLe_antisymm {x y : List Char} (h1 : charListLe x y = true)
    (h2 : charListLe y x = true) : x = y := by
  induction x generalizing y with
  | nil =>
    cases y with
    | nil => rfl
    | cons b bs => simp [charListLe] at h2
  | cons a as ih =>
    cases y with
    | nil => simp [charListLe] at h1
    | cons b bs =>
      simp only [charListLe] at h1 h2
      by_cases hab : a.toNat < b.toNat
      · simp [hab, Nat.lt_asymm hab] at h2
      · by_cases hba : b.toNat < a.toNat
        · simp [hba, Nat.lt_asymm hba] at h1
        · have hc : a = b := charToNat_inj (by omega)
          simp [hab, hba] at h1 h2
          rw [hc, ih h1 h2]

instance : IsTotal String pyLe :=
  ⟨fun a b => charListLe_total a.data b.data⟩

instance : IsTrans String pyLe :=
  ⟨fun _ _ _ h1 h2 => charListLe_trans h1 h2⟩

instance : IsAntisymm String pyLe :=
  ⟨fun a b h1 h2 => by
    cases a; cases b
    exact congrArg String.mk (charListLe_antisymm h1 h2)⟩

theorem sorted_uniqueSorted (l : List String) : List.Sorted pyLe (uniqueSorted l) :=
  List.sorted_insertionSort pyLe l.dedup

theorem nodup_uniqueSorted (l : List String) : (uniqueSorted l).Nodup :=
  (List.perm_insertionSort pyLe l.dedup).nodup_iff.mpr (List.nodup_dedup l)

theorem mem_uniqueSorted {x : String} {l : List String} :
    x ∈ uniqueSorted l ↔ x ∈ l :=
  ((List.perm_insertionSort pyLe l.dedup).mem_iff).trans List.mem_dedup

theorem uniqueSorted_eq_of_mem_iff {l1 l2 : List String}
    (h : ∀ x, x ∈ l1 ↔ x ∈ l2) : uniqueSorted l1 = uniqueSorted l2 := by
  have hdd : List.Perm l1.dedup l2.dedup :=
    (List.perm_ext_iff_of_nodup (List.nodup_dedup l1) (List.nodup_dedup l2)).2
      (fun a => by rw [List.mem_dedup, List.mem_dedup]; exact h a)
  exact List.eq_of_perm_of_sorted
    ((List.perm_insertionSort pyLe l1.dedup).trans
      (hdd.trans (List.perm_insertionSort pyLe l2.dedup).symm))
    (sorted_uniqueSorted l1) (sorted_uniqueSorted l2)

/-- The shape of every run that passes the credential check and both file
reads: header, STEP 1 block, STEP 2 block, STEP 3 block, closing banner,
exit 0, and the remote trace of the two `exec_sql` calls followed by the
verification step's calls. -/
theorem runSetup_ok (env : Env) (fs : FS) (o : Oracle) (s d : String)
    (h1 : truthy env.SUPABASE_URL = true)
    (h2 : truthy env.SUPABASE_SERVICE_ROLE_KEY = true)
    (hs : fs.schemaFile = some s) (hd : fs.seedFile = some d) :
    runSetup env fs o =
      { output := headerOutput ++ step1Output ++ schemaStep o.schemaResp
                  ++ step2Output ++ seedStep o.seedResp
                  ++ step3Output ++ (verificationStep o.countResp o.rowsResp).1
                  ++ closingOutput,
        outcome := Outcome.exited 0,
        clientBuilt := true,
        calls := RemoteCall.execSql s :: RemoteCall.execSql d ::
                 (verificationStep o.countResp o.rowsResp).2 } := by
  simp [runSetup, h1, h2, hs, hd]

/-- C1: whenever either required environment variable is absent or empty,
the runner prints the credential-error line and the line naming the
required variables (`SUPABASE_URL`, `SUPABASE_SERVICE_ROLE_KEY`), exits
with status 1, and neither constructs the client nor attempts any remote
call. -/
theorem c1_missing_credentials_fail_fast (env : Env) (fs : FS) (o : Oracle)
    (h : truthy env.SUPABASE_URL = false ∨
         truthy env.SUPABASE_SERVICE_ROLE_KEY = false) :
    (runSetup env fs o).output = missingCredsOutput ∧
    (runSetup env fs o).outcome = Outcome.exited 1 ∧
    (runSetup env fs o).clientBuilt = false ∧
    (runSetup env fs o).calls = [] := by
  rcases h with h | h <;> simp [runSetup, h]

/-- C1 witness: the environment whose URL variable is set but empty. -/
theorem c1_witness :
    (runSetup ⟨some "", some "service-key-123"⟩ fsOK oracle12).output = missingCredsOutput ∧
    (runSetup ⟨some "", some "service-key-123"⟩ fsOK oracle12).outcome = Outcome.exited 1 ∧
    (runSetup ⟨some "", some "service-key-123"⟩ fsOK oracle12).clientBuilt = false ∧
    (runSetup ⟨some "", some "service-key-123"⟩ fsOK oracle12).calls = [] :=
  c1_missing_credentials_fail_fast ⟨some "", some "service-key-123"⟩ fsOK oracle12
    (Or.inl (by decide))

/-- C2 counterexample: on an all-success run the remote trace has four
calls, not three — the verification step issues two separate remote
queries (count, then distinct symbols). -/
theorem c2_counterexample :
    (runSetup envOK fsOK oracle12).calls =
      [RemoteCall.execSql "CREATE TABLE price_history;",
       RemoteCall.execSql "INSERT INTO price_history;",
       RemoteCall.selectCount, RemoteCall.selectRows] ∧
    (runSetup envOK fsOK oracle12).calls.length ≠ 3 := by
  exact ⟨by decide, by decide⟩

/-- C2 (amended): with valid credentials and readable files the runner
always attempts `exec_sql(schema)`, `exec_sql(seed)` and the verification
count query, in this fixed order regardless of outcomes; a fourth remote
call, the distinct-symbols query, is attempted exactly when the count
query succeeds. -/
theorem c2_remote_call_trace (env : Env) (fs : FS) (o : Oracle) (s d : String)
    (h1 : truthy env.SUPABASE_URL = true)
    (h2 : truthy env.SUPABASE_SERVICE_ROLE_KEY = true)
    (hs : fs.schemaFile = some s) (hd : fs.seedFile = some d) :
    (runSetup env fs o).calls =
      [RemoteCall.execSql s, RemoteCall.execSql d, RemoteCall.selectCount] ++
        (match o.countResp with
         | Except.ok _ => [RemoteCall.selectRows]
         | Except.error _ => []) := by
  rw [runSetup_ok env fs o s d h1 h2 hs hd]
  cases hc : o.countResp with
  | error e => simp [verificationStep, hc]
  | ok n =>
    cases hr : o.rowsResp with
    | error e => simp [verificationStep, hc, hr]
    | ok rs =>
      cases hsy : rowsSymbols rs <;> simp [verificationStep, hc, hr, hsy]

/-- C2 witness: the amended trace on the run whose count query fails. -/
theorem c2_witness :
    (runSetup envOK fsOK oracleCountFail).calls =
      [RemoteCall.execSql "CREATE TABLE price_history;",
       RemoteCall.execSql "INSERT INTO price_history;",
       RemoteCall.selectCount] ++
        (match oracleCountFail.countResp with
         | Except.ok _ => [RemoteCall.selectRows]
         | Except.error _ => []) :=
  c2_remote_call_trace envOK fsOK oracleCountFail
    "CREATE TABLE price_history;" "INSERT INTO price_history;" rfl rfl rfl rfl

/-- C3: with valid credentials and readable files the runner always exits
with status 0 and its output ends with the closing summary banner — for
every oracle, in particular when all remote calls fail; and any run that
exits with a non-zero status failed the credential check. -/
theorem c3_always_completes :
    (∀ env fs o s d, truthy env.SUPABASE_URL = true →
      truthy env.SUPABASE_SERVICE_ROLE_KEY = true →
      fs.schemaFile = some s → fs.seedFile = some d →
      (runSetup env fs o).outcome = Outcome.exited 0 ∧
      List.IsSuffix closingOutput (runSetup env fs o).output) ∧
    (∀ env fs o c, (runSetup env fs o).outcome = Outcome.exited c → c ≠ 0 →
      ¬ credsOk env) := by
  constructor
  · intro env fs o s d h1 h2 hs hd
    rw [runSetup_ok env fs o s d h1 h2 hs hd]
    exact ⟨rfl, List.suffix_append _ _⟩
  · intro env fs o c h hc0 hcr
    obtain ⟨h1, h2⟩ := hcr
    rcases hs : fs.schemaFile with _ | s
    · simp [runSetup, h1, h2, hs] at h
    · rcases hd : fs.seedFile with _ | d
      · simp [runSetup, h1, h2, hs, hd] at h
      · rw [runSetup_ok env fs o s d h1 h2 hs hd] at h
        simp at h
        omega

/-- C3 witness: the run in which every remote call fails still exits 0
with the closing banner. -/
theorem c3_witness :
    (runSetup envOK fsOK oracleAllFail).outcome = Outcome.exited 0 ∧
    List.IsSuffix closingOutput (runSetup envOK fsOK oracleAllFail).output :=
  c3_always_completes.1 envOK fsOK oracleAllFail
    "CREATE TABLE price_history;" "INSERT INTO price_history;" rfl rfl rfl rfl

/-- C4: whenever the verification queries succeed, the output contains
the line reporting the returned count and an "Available symbols" line
whose list is sorted, duplicate-free, joined by ", ", and has exactly the
distinct symbol values of the returned rows. -/
theorem c4_verification_report (env : Env) (fs : FS) (o : Oracle)
    (s d : String) (n : Nat) (rs : List Row) (syms : List String)
    (h1 : truthy env.SUPABASE_URL = true)
    (h2 : truthy env.SUPABASE_SERVICE_ROLE_KEY = true)
    (hs : fs.schemaFile = some s) (hd : fs.seedFile = some d)
    (hc : o.countResp = Except.ok n) (hr : o.rowsResp = Except.ok rs)
    (hsy : rowsSymbols rs = Except.ok syms) :
    ∃ l : List String,
      ("✓ Found " ++ toString n ++ " price history records")
        ∈ (runSetup env fs o).output ∧
      ("✓ Available symbols: " ++ String.intercalate ", " l)
        ∈ (runSetup env fs o).output ∧
      List.Sorted pyLe l ∧ l.Nodup ∧ (∀ x, x ∈ l ↔ x ∈ syms) := by
  refine ⟨uniqueSorted syms, ?_, ?_,
    sorted_uniqueSorted syms, nodup_uniqueSorted syms, fun x => mem_uniqueSorted⟩
  · rw [runSetup_ok env fs o s d h1 h2 hs hd]
    simp [verificationStep, hc, hr, hsy]
  · rw [runSetup_ok env fs o s d h1 h2 hs hd]
    simp [verificationStep, hc, hr, hsy, symbolsLine]

/-- C4 witness: the mocked response with count 12 and symbol rows
`{BTC, BTC, ETH, SOL}` yields the count line and the literal line
`✓ Available symbols: BTC, ETH, SOL`; the happy-path response with
count 19 lists all five symbols alphabetically. -/
theorem c4_witness :
    (∃ l : List String,
      ("✓ Found " ++ toString 12 ++ " price history records")
        ∈ (runSetup envOK fsOK oracle12).output ∧
      ("✓ Available symbols: " ++ String.intercalate ", " l)
        ∈ (runSetup envOK fsOK oracle12).output ∧
      List.Sorted pyLe l ∧ l.Nodup ∧
      (∀ x, x ∈ l ↔ x ∈ ["BTC", "BTC", "ETH", "SOL"])) ∧
    "✓ Found 12 price history records" ∈ (runSetup envOK fsOK oracle12).output ∧
    "✓ Available symbols: BTC, ETH, SOL" ∈ (runSetup envOK fsOK oracle12).output ∧
    "✓ Found 19 price history records" ∈ (runSetup envOK fsOK oracle19).output ∧
    "✓ Available symbols: ADA, BTC, ETH, MATIC, SOL"
      ∈ (runSetup envOK fsOK oracle19).output :=
  ⟨c4_verification_report envOK fsOK oracle12 "CREATE TABLE price_history;"
      "INSERT INTO price_history;" 12 rows12 ["BTC", "BTC", "ETH", "SOL"]
      rfl rfl rfl rfl rfl rfl rfl,
   by decide, by decide, by decide, by decide⟩

/-- C5: with valid credentials but either SQL file missing or unreadable,
the run ends in an unhandled crash, no remote call is attempted, and the
STEP 1 banner is never printed. -/
theorem c5_file_read_crash (env : Env) (fs : FS) (o : Oracle)
    (h1 : truthy env.SUPABASE_URL = true)
    (h2 : truthy env.SUPABASE_SERVICE_ROLE_KEY = true)
    (h : fs.schemaFile = none ∨ fs.seedFile = none) :
    (∃ m, (runSetup env fs o).outcome = Outcome.crashed m) ∧
    (runSetup env fs o).calls = [] ∧
    "STEP 1: Creating Enhanced Database Schema" ∉ (runSetup env fs o).output := by
  have key : (runSetup env fs o).output = headerOutput ∧
      (∃ m, (runSetup env fs o).outcome = Outcome.crashed m) ∧
      (runSetup env fs o).calls = [] := by
    rcases h with h | h
    · simp [runSetup, h1, h2, h]
    · rcases hs : fs.schemaFile with _ | s <;> simp [runSetup, h1, h2, hs, h]
  refine ⟨key.2.1, key.2.2, ?_⟩
  rw [key.1]
  decide

/-- C5 witness: the schema file is absent. -/
theorem c5_witness :
    (∃ m, (runSetup envOK fsNoSchema oracle12).outcome = Outcome.crashed m) ∧
    (runSetup envOK fsNoSchema oracle12).calls = [] ∧
    "STEP 1: Creating Enhanced Database Schema"
      ∉ (runSetup envOK fsNoSchema oracle12).output :=
  c5_file_read_crash envOK fsNoSchema oracle12 rfl rfl (Or.inl rfl)

/-- C6 counterexample: the seed step's `except` block prints only the
exception-message line — it is a one-line handler, with no
remediation-guidance line — refuting the claim that every failing remote
step prints its message together with remediation guidance. -/
theorem c6_counterexample :
    seedStep (Except.error "syntax error at or near INSERT") =
      ["\n✗ Error seeding data: syntax error at or near INSERT"] ∧
    ("\n✗ Error seeding data: syntax error at or near INSERT")
      ∈ (runSetup envOK fsOK oracleSeedFail).output :=
  ⟨rfl, by decide⟩

/-- C6 (amended): each of the three remote steps catches its own failure
locally and the run continues through the remaining step banners to exit
0; a schema failure prints its message plus manual-run guidance, a
verification failure prints its message plus guidance, while a seed
failure prints only its message line; each remote call appears at most
once in the trace (no retries). -/
theorem c6_error_handling (env : Env) (fs : FS) (o : Oracle) (s d : String)
    (h1 : truthy env.SUPABASE_URL = true)
    (h2 : truthy env.SUPABASE_SERVICE_ROLE_KEY = true)
    (hs : fs.schemaFile = some s) (hd : fs.seedFile = some d) :
    (∀ e, o.schemaResp = Except.error e →
      ("\n✗ Error creating schema: " ++ e) ∈ (runSetup env fs o).output ∧
      "\nPlease run the following scripts manually in Supabase SQL Editor:"
        ∈ (runSetup env fs o).output) ∧
    (∀ e, o.seedResp = Except.error e →
      seedStep o.seedResp = ["\n✗ Error seeding data: " ++ e] ∧
      ("\n✗ Error seeding data: " ++ e) ∈ (runSetup env fs o).output) ∧
    (∀ e, o.countResp = Except.error e →
      ("\n✗ Verification failed: " ++ e) ∈ (runSetup env fs o).output ∧
      "\nPlease ensure the SQL scripts have been executed in Supabase."
        ∈ (runSetup env fs o).output) ∧
    "STEP 2: Seeding Sample Price Data" ∈ (runSetup env fs o).output ∧
    "STEP 3: Verifying Database Setup" ∈ (runSetup env fs o).output ∧
    "DATABASE SETUP COMPLETE!" ∈ (runSetup env fs o).output ∧
    (runSetup env fs o).outcome = Outcome.exited 0 := by
  rw [runSetup_ok env fs o s d h1 h2 hs hd]
  refine ⟨?_, ?_, ?_, ?_, ?_, ?_, rfl⟩
  · intro e he
    constructor <;> simp [he, schemaStep, headerOutput, step1Output, step2Output,
      step3Output, closingOutput]
  · intro e he
    exact ⟨by rw [he, seedStep], by simp [he, seedStep]⟩
  · intro e he
    constructor <;> simp [verificationStep, he, verifyFailOutput]
  · simp [step2Output]
  · simp [step3Output]
  · simp [closingOutput]

/-- C6 witness: the run in which all remote calls fail exhibits all three
handlers and still exits 0. -/
theorem c6_witness :
    (∀ e, oracleAllFail.schemaResp = Except.error e →
      ("\n✗ Error creating schema: " ++ e)
        ∈ (runSetup envOK fsOK oracleAllFail).output ∧
      "\nPlease run the following scripts manually in Supabase SQL Editor:"
        ∈ (runSetup envOK fsOK oracleAllFail).output) ∧
    (∀ e, oracleAllFail.seedResp = Except.error e →
      seedStep oracleAllFail.seedResp = ["\n✗ Error seeding data: " ++ e] ∧
      ("\n✗ Error seeding data: " ++ e)
        ∈ (runSetup envOK fsOK oracleAllFail).output) ∧
    (∀ e, oracleAllFail.countResp = Except.error e →
      ("\n✗ Verification failed: " ++ e)
        ∈ (runSetup envOK fsOK oracleAllFail).output ∧
      "\nPlease ensure the SQL scripts have been executed in Supabase."
        ∈ (runSetup envOK fsOK oracleAllFail).output) ∧
    "STEP 2: Seeding Sample Price Data" ∈ (runSetup envOK fsOK oracleAllFail).output ∧
    "STEP 3: Verifying Database Setup" ∈ (runSetup envOK fsOK oracleAllFail).output ∧
    "DATABASE SETUP COMPLETE!" ∈ (runSetup envOK fsOK oracleAllFail).output ∧
    (runSetup envOK fsOK oracleAllFail).outcome = Outcome.exited 0 :=
  c6_error_handling envOK fsOK oracleAllFail
    "CREATE TABLE price_history;" "INSERT INTO price_history;" rfl rfl rfl rfl

/-- C7: runs that differ only in the (non-empty) values of the two
credential variables are indistinguishable — the whole run result,
console output included, is identical, so the runner's output never
depends on nor reveals the credential values. -/
theorem c7_credential_noninterference (env1 env2 : Env) (fs : FS) (o : Oracle)
    (h1 : credsOk env1) (h2 : credsOk env2) :
    runSetup env1 fs o = runSetup env2 fs o := by
  obtain ⟨h1a, h1b⟩ := h1
  obtain ⟨h2a, h2b⟩ := h2
  simp [runSetup, h1a, h1b, h2a, h2b]

/-- C7 witness: two different concrete credential pairs give the same
run result. -/
theorem c7_witness : runSetup envOK fsOK oracle12 = runSetup envOK2 fsOK oracle12 :=
  c7_credential_noninterference envOK envOK2 fsOK oracle12 (by decide) (by decide)

/-- C8: if the verification count query fails, the verification block
prints exactly the failure diagnostic with the exception message (and its
fixed guidance line) — no count line and no symbols line — and the
distinct-symbols query is never attempted: the run's remote trace stops
at the count query. -/
theorem c8_count_failure_short_circuits (env : Env) (fs : FS) (o : Oracle)
    (s d e : String)
    (h1 : truthy env.SUPABASE_URL = true)
    (h2 : truthy env.SUPABASE_SERVICE_ROLE_KEY = true)
    (hs : fs.schemaFile = some s) (hd : fs.seedFile = some d)
    (hc : o.countResp = Except.error e) :
    verificationStep o.countResp o.rowsResp =
      (verifyFailOutput e, [RemoteCall.selectCount]) ∧
    (runSetup env fs o).calls =
      [RemoteCall.execSql s, RemoteCall.execSql d, RemoteCall.selectCount] ∧
    RemoteCall.selectRows ∉ (runSetup env fs o).calls := by
  have hv : verificationStep o.countResp o.rowsResp =
      (verifyFailOutput e, [RemoteCall.selectCount]) := by
    rw [hc, verificationStep]
  have hcalls : (runSetup env fs o).calls =
      [RemoteCall.execSql s, RemoteCall.execSql d, RemoteCall.selectCount] := by
    rw [runSetup_ok env fs o s d h1 h2 hs hd]
    simp [hv]
  refine ⟨hv, hcalls, ?_⟩
  rw [hcalls]
  simp

/-- C8 witness: the concrete run whose count query fails. -/
theorem c8_witness :
    verificationStep oracleCountFail.countResp oracleCountFail.rowsResp =
      (verifyFailOutput "relation public.price_history does not exist",
       [RemoteCall.selectCount]) ∧
    (runSetup envOK fsOK oracleCountFail).calls =
      [RemoteCall.execSql "CREATE TABLE price_history;",
       RemoteCall.execSql "INSERT INTO price_history;",
       RemoteCall.selectCount] ∧
    RemoteCall.selectRows ∉ (runSetup envOK fsOK oracleCountFail).calls :=
  c8_count_failure_short_circuits envOK fsOK oracleCountFail
    "CREATE TABLE price_history;" "INSERT INTO price_history;"
    "relation public.price_history does not exist" rfl rfl rfl rfl rfl

/-- C9: when extracting the `symbol` value from the returned rows raises
(for example a row lacks the key), the error is caught by the
verification handler: the run still exits 0, prints the
verification-failure diagnostic with the exception message, and still
ends with the closing summary banner. -/
theorem c9_malformed_row_caught (env : Env) (fs : FS) (o : Oracle)
    (s d : String) (n : Nat) (rs : List Row) (e : String)
    (h1 : truthy env.SUPABASE_URL = true)
    (h2 : truthy env.SUPABASE_SERVICE_ROLE_KEY = true)
    (hs : fs.schemaFile = some s) (hd : fs.seedFile = some d)
    (hc : o.countResp = Except.ok n) (hr : o.rowsResp = Except.ok rs)
    (he : rowsSymbols rs = Except.error e) :
    (runSetup env fs o).outcome = Outcome.exited 0 ∧
    ("\n✗ Verification failed: " ++ e) ∈ (runSetup env fs o).output ∧
    List.IsSuffix closingOutput (runSetup env fs o).output := by
  rw [runSetup_ok env fs o s d h1 h2 hs hd]
  refine ⟨rfl, ?_, List.suffix_append _ _⟩
  simp [verificationStep, hc, hr, he, verifyFailOutput]

/-- C9 witness: a response whose second row has no `symbol` key; the
raised `KeyError` prints as the quoted key. -/
theorem c9_witness :
    (runSetup envOK fsOK oracleBadRow).outcome = Outcome.exited 0 ∧
    ("\n✗ Verification failed: " ++ "\x27symbol\x27")
      ∈ (runSetup envOK fsOK oracleBadRow).output ∧
    List.IsSuffix closingOutput (runSetup envOK fsOK oracleBadRow).output :=
  c9_malformed_row_caught envOK fsOK oracleBadRow
    "CREATE TABLE price_history;" "INSERT INTO price_history;"
    3 [⟨[("symbol", "BTC")]⟩, ⟨[("sym", "ETH")]⟩] "\x27symbol\x27"
    rfl rfl rfl rfl rfl rfl rfl

/-- C10: the "Available symbols" line is canonical in the set of symbol
values: two symbol-value lists with the same members — regardless of
order or duplication — produce the same duplicate-free, sorted list and
hence the identical printed line. -/
theorem c10_symbols_line_canonical (syms1 syms2 : List String)
    (h : ∀ x, x ∈ syms1 ↔ x ∈ syms2) :
    uniqueSorted syms1 = uniqueSorted syms2 ∧
    symbolsLine syms1 = symbolsLine syms2 ∧
    (uniqueSorted syms1).Nodup ∧ List.Sorted pyLe (uniqueSorted syms1) := by
  have he := uniqueSorted_eq_of_mem_iff h
  exact ⟨he, by rw [symbolsLine, symbolsLine, he],
    nodup_uniqueSorted syms1, sorted_uniqueSorted syms1⟩

/-- C10 witness: a duplicated, unordered list and a permuted list with
the same members give the same symbols line. -/
theorem c10_witness :
    uniqueSorted ["SOL", "BTC", "BTC", "ETH"] = uniqueSorted ["ETH", "SOL", "BTC"] ∧
    symbolsLine ["SOL", "BTC", "BTC", "ETH"] = symbolsLine ["ETH", "SOL", "BTC"] ∧
    (uniqueSorted ["SOL", "BTC", "BTC", "ETH"]).Nodup ∧
    List.Sorted pyLe (uniqueSorted ["SOL", "BTC", "BTC", "ETH"]) :=
  c10_symbols_line_canonical ["SOL", "BTC", "BTC", "ETH"] ["ETH", "SOL", "BTC"]
    (fun x => by
      constructor <;> intro hx <;> simp only [List.mem_cons, List.not_mem_nil,
        or_false] at hx ⊢ <;> tauto)

end DbSetup
